import Mathlib

/-!
Shallow embedding of `src/index.ts` of the spore-sniper repository.

The program polls a status feed for two agents (ids 6 and 7), and once either
agent's `tokenAddress` becomes non-blank it sets a `done` latch, fans out two
concurrent Jupiter swap executions (`Promise.all`), and stops rescheduling the
poll.  External effects (HTTP fetches, the RPC client, signing) are modelled as
an oracle environment whose calls return `Except String α`: `.error` stands for
a thrown exception, and `Option`-valued payloads stand for null/undefined JSON
values.  Each executor run also records the ordered trace of the pipeline steps
it performs, so that claims about call order and about "no network request is
issued" can be stated.
-/

namespace SporeSniper

/-- Configuration constant `POLL_INTERVAL_MS = 100` from the source. -/
def POLL_INTERVAL_MS : Nat := 100

/-- Configuration constant `AGENT_ABEL_ID = 6` from the source. -/
def AGENT_ABEL_ID : Nat := 6

/-- Configuration constant `AGENT_TRINITY_ID = 7` from the source. -/
def AGENT_TRINITY_ID : Nat := 7

/-- The fixed native-mint sentinel used as `inputMint` in the quote request. -/
def SOL_MINT : String := "So11111111111111111111111111111111111111112"

/-- JavaScript's `String.prototype.trim()`: strip leading and trailing
whitespace.  Defined by structural recursion over the character list so that
it evaluates inside the kernel. -/
def jsTrim (s : String) : String :=
  ⟨((s.data.dropWhile Char.isWhitespace).reverse.dropWhile Char.isWhitespace).reverse⟩

/-- An agent record from the feed.  The core logic only reads `id` and
`tokenAddress`; the remaining descriptive fields of the `Agent` interface are
never consulted and are omitted.  `tokenAddress` is `Option String` because
the code guards it with optional chaining (`abel?.tokenAddress?.trim()`),
so an absent field must be representable. -/
structure Agent where
  id : Nat
  tokenAddress : Option String
deriving DecidableEq, Repr

/-- `found?.tokenAddress?.trim() ?? ''` applied to one found agent: trim the
token address, treating an absent field as the empty string. -/
def agentToken (a : Agent) : String :=
  match a.tokenAddress with
  | some s => jsTrim s
  | none => ""

/-- `agents.find((agent) => agent.id === targetId)?.tokenAddress?.trim() ?? ''`:
the token string the poll tick computes for one configured target id. -/
def tokenOf (agents : List Agent) (targetId : Nat) : String :=
  match agents.find? (fun a => a.id == targetId) with
  | some a => agentToken a
  | none => ""

/-- The detection step's verdict for one target: the target counts as revealed
exactly when the computed token string is non-empty (the code's
`token.length > 0` test); the revealed address is that (trimmed) string. -/
def revealResult (agents : List Agent) (targetId : Nat) : Option String :=
  if (tokenOf agents targetId).length > 0 then some (tokenOf agents targetId) else none

/-- Outcome of one poll tick's fetch of the feed: either the fetch/JSON-parse
threw (`failure`), or it produced a snapshot whose agent list is given
(the snapshot's auxiliary counters are never read by the core). -/
inductive FetchResult where
  | failure (msg : String)
  | success (agents : List Agent)
deriving DecidableEq, Repr

/-- The poller state: the single `done` latch (`let done = false`). -/
structure PollState where
  done : Bool
deriving DecidableEq, Repr

/-- What one invocation of `pollSporeApi` does after its body runs. -/
inductive TickAction where
  /-- The latch was already set: return immediately, schedule nothing. -/
  | alreadyDone
  /-- `setTimeout(pollSporeApi, POLL_INTERVAL_MS)`: schedule the next tick. -/
  | reschedule (delayMs : Nat)
  /-- Reveal detected: run `Promise.all` over both buys and do not reschedule.
  The two fields are the token strings passed to the two executor calls. -/
  | execute (abelToken trinityToken : String)
deriving DecidableEq, Repr

/-- One tick of `pollSporeApi`, as a pure step function on the latch state.
Mirrors the source: an already-set latch returns at once; a fetch failure is
caught, logged and falls through to the `setTimeout`; a successful snapshot is
scanned for the two targets, and if either token is non-empty the latch is set
and the execution phase runs with both token strings (no reschedule);
otherwise the next tick is scheduled after the fixed delay. -/
def pollTick (s : PollState) (input : FetchResult) : PollState × TickAction :=
  if s.done then (s, .alreadyDone)
  else
    match input with
    | .failure _ => (s, .reschedule POLL_INTERVAL_MS)
    | .success agents =>
      let abelToken := tokenOf agents AGENT_ABEL_ID
      let trinityToken := tokenOf agents AGENT_TRINITY_ID
      if abelToken.length > 0 || trinityToken.length > 0 then
        ({ done := true }, .execute abelToken trinityToken)
      else
        (s, .reschedule POLL_INTERVAL_MS)

/-- Run a sequence of ticks from a state, collecting the actions in order. -/
def runTicks (s : PollState) (inputs : List FetchResult) : PollState × List TickAction :=
  match inputs with
  | [] => (s, [])
  | i :: rest =>
    let step := pollTick s i
    let next := runTicks step.1 rest
    (next.1, step.2 :: next.2)

/-- Whether a tick action enters the execution phase. -/
def isExecute : TickAction → Bool
  | .execute _ _ => true
  | _ => false

/-- How many of the recorded actions entered the execution phase. -/
def execCount (as : List TickAction) : Nat :=
  (as.filter isExecute).length

/-- The query parameters of the Jupiter quote request (`/v6/quote`). -/
structure QuoteReq where
  inputMint : String
  outputMint : String
  amount : Nat
  slippageBps : Nat
deriving DecidableEq, Repr

/-- The parsed JSON body of a quote response.  `error` is `some e` when the
response carries a truthy `error` field; the rest of the quote payload is
opaque to the program (it is only forwarded to the swap build request) and is
represented by `payload`. -/
structure QuoteResp where
  error : Option String
  payload : Nat
deriving DecidableEq, Repr

/-- The JSON body of the swap build request (`/v6/swap`). -/
structure SwapReq where
  quoteResponse : QuoteResp
  userPublicKey : String
  wrapAndUnwrapSol : Bool
deriving DecidableEq, Repr

/-- The parsed JSON body of a swap build response. -/
structure SwapResp where
  error : Option String
  swapTransaction : Option String
deriving DecidableEq, Repr

/-- Options passed to `connection.sendRawTransaction`. -/
structure SendOpts where
  skipPreflight : Bool
  maxRetries : Nat
deriving DecidableEq, Repr

/-- Result of `connection.getLatestBlockhash()`. -/
structure BlockhashInfo where
  blockhash : String
  lastValidBlockHeight : Nat
deriving DecidableEq, Repr

/-- Argument of `connection.confirmTransaction`. -/
structure ConfirmReq where
  blockhash : String
  lastValidBlockHeight : Nat
  signature : String
deriving DecidableEq, Repr

/-- A `SignatureResult`: `err` is `some e` when the confirmation carries a
non-null error value, `none` when `err == null`. -/
structure SignatureResult where
  err : Option String
deriving DecidableEq, Repr

/-- An `RpcResponseAndContext<SignatureResult>`. -/
structure RpcResponseAndContext where
  value : SignatureResult
deriving DecidableEq, Repr

/-- One step of the executor pipeline, recorded in order of occurrence.
`sign` is a local computation; the other five are network/RPC requests. -/
inductive Step where
  | quote (req : QuoteReq)
  | buildSwap (req : SwapReq)
  | sign (tx64 : String)
  | submit (raw : String) (opts : SendOpts)
  | getBlockhash
  | confirm (req : ConfirmReq)
deriving DecidableEq, Repr

/-- The canonical pipeline position of a step; used to state that a recorded
trace follows the order quote → build → sign → submit → blockhash → confirm. -/
def stepRank : Step → Nat
  | .quote _ => 0
  | .buildSwap _ => 1
  | .sign _ => 2
  | .submit _ _ => 3
  | .getBlockhash => 4
  | .confirm _ => 5

/-- Oracle environment for every external effect the executor performs.
Each call returns `.error e` when the corresponding JavaScript operation
throws, and its payload otherwise.  An `.ok none` fetch result is a
null/undefined JSON body.  `signSerialize` covers step 3 of the source
(deserialize the base64 transaction, sign it with the wallet payer, and
serialize it back to raw bytes); its `.error` case is a thrown
deserialization error. -/
structure ExecEnv where
  walletPublicKey : String
  fetchQuote : QuoteReq → Except String (Option QuoteResp)
  fetchSwap : SwapReq → Except String (Option SwapResp)
  signSerialize : String → Except String String
  sendRawTransaction : String → SendOpts → Except String String
  getLatestBlockhash : Except String BlockhashInfo
  confirmTransaction : ConfirmReq → Except String RpcResponseAndContext

/-- What `handleTxConfirmation` reports. -/
inductive ConfirmOutcome where
  | success (txid : String) (solscanLink : String)
  | failure (errDetail : String)
deriving DecidableEq, Repr

/-- `handleTxConfirmation`: interpret a confirmation result.  A null `err`
yields the success log with the Solscan link; a present `err` yields the
failure log carrying the raw error detail.  The function is total by
construction (it returns a `ConfirmOutcome`, it has no exceptional path). -/
def handleTxConfirmation (txid : String) (confirmation : RpcResponseAndContext) :
    ConfirmOutcome :=
  match confirmation.value.err with
  | none => .success txid ("https://solscan.io/tx/" ++ txid)
  | some e => .failure e

/-- The fixed quote request built for a candidate mint: 1 SOL
(`amountLamports = 1_000_000_000`) in, 50 % slippage (`slippageBps = 5000`). -/
def quoteReqFor (mint : String) : QuoteReq :=
  { inputMint := SOL_MINT, outputMint := mint, amount := 1000000000, slippageBps := 5000 }

/-- The swap build request body for a quote:
`{ quoteResponse, userPublicKey, wrapAndUnwrapSol: true }`. -/
def swapReqFor (env : ExecEnv) (q : QuoteResp) : SwapReq :=
  { quoteResponse := q, userPublicKey := env.walletPublicKey, wrapAndUnwrapSol := true }

/-- The fixed submission options: `{ skipPreflight: true, maxRetries: 2 }`. -/
def sendOptsFixed : SendOpts :=
  { skipPreflight := true, maxRetries := 2 }

/-- The confirmation request built from the latest blockhash window and the
submitted signature. -/
def confirmReqFor (bh : BlockhashInfo) (txid : String) : ConfirmReq :=
  { blockhash := bh.blockhash, lastValidBlockHeight := bh.lastValidBlockHeight,
    signature := txid }

/-- The `try` block of `buyTokenWithJupiter` for a non-blank mint: the step
trace performed so far, paired with either the thrown error (`.error`, with
the source's error message) or the confirmation outcome produced at the end of
the pipeline. -/
def buyBody (env : ExecEnv) (mint : String) : List Step × Except String ConfirmOutcome :=
  let qreq := quoteReqFor mint
  match env.fetchQuote qreq with
  | .error e => ([.quote qreq], .error e)
  | .ok none => ([.quote qreq], .error "Quote API returned an error: undefined")
  | .ok (some q) =>
    match q.error with
    | some e => ([.quote qreq], .error ("Quote API returned an error: " ++ e))
    | none =>
      let sreq := swapReqFor env q
      match env.fetchSwap sreq with
      | .error e => ([.quote qreq, .buildSwap sreq], .error e)
      | .ok none =>
        ([.quote qreq, .buildSwap sreq], .error "Swap API returned an error: Unknown error")
      | .ok (some sw) =>
        match sw.error with
        | some e => ([.quote qreq, .buildSwap sreq], .error ("Swap API returned an error: " ++ e))
        | none =>
          match sw.swapTransaction with
          | none => ([.quote qreq, .buildSwap sreq], .error "No swapTransaction found in response.")
          | some tx64 =>
            match env.signSerialize tx64 with
            | .error e => ([.quote qreq, .buildSwap sreq, .sign tx64], .error e)
            | .ok raw =>
              match env.sendRawTransaction raw sendOptsFixed with
              | .error e =>
                ([.quote qreq, .buildSwap sreq, .sign tx64, .submit raw sendOptsFixed], .error e)
              | .ok txid =>
                match env.getLatestBlockhash with
                | .error e =>
                  ([.quote qreq, .buildSwap sreq, .sign tx64, .submit raw sendOptsFixed,
                    .getBlockhash], .error e)
                | .ok bh =>
                  match env.confirmTransaction (confirmReqFor bh txid) with
                  | .error e =>
                    ([.quote qreq, .buildSwap sreq, .sign tx64, .submit raw sendOptsFixed,
                      .getBlockhash, .confirm (confirmReqFor bh txid)], .error e)
                  | .ok conf =>
                    ([.quote qreq, .buildSwap sreq, .sign tx64, .submit raw sendOptsFixed,
                      .getBlockhash, .confirm (confirmReqFor bh txid)],
                     .ok (handleTxConfirmation txid conf))

/-- The observable outcome of one `buyTokenWithJupiter` call.  The function's
promise always resolves: either the blank-mint guard returned early
(`invalidMint`), or the pipeline finished and `handleTxConfirmation` reported
(`finished`), or an exception was caught and logged (`caught`). -/
inductive ExecOutcome where
  | invalidMint
  | finished (o : ConfirmOutcome)
  | caught (msg : String)
deriving DecidableEq, Repr

/-- The full observable result of one executor call. -/
structure ExecResult where
  steps : List Step
  outcome : ExecOutcome
deriving DecidableEq, Repr

/-- `buyTokenWithJupiter`: the guard `if (!mint || !mint.trim()) return;`
turns an absent, empty, or whitespace-only mint into a no-op with an empty
step trace; otherwise the `try` block runs, and a thrown error is caught and
logged (`caught`) rather than propagated. -/
def buyTokenWithJupiter (env : ExecEnv) (mint : Option String) : ExecResult :=
  match mint with
  | none => { steps := [], outcome := .invalidMint }
  | some m =>
    if jsTrim m = "" then { steps := [], outcome := .invalidMint }
    else
      match buyBody env m with
      | (steps, .ok o) => { steps := steps, outcome := .finished o }
      | (steps, .error e) => { steps := steps, outcome := .caught e }

/-- The execution phase:
`Promise.all([buyTokenWithJupiter(abelToken), buyTokenWithJupiter(trinityToken)])`.
Each concurrent invocation interacts with the external world through its own
oracle, and—because the executor's catch-all means neither promise ever
rejects—the join resolves with both results; neither is discarded. -/
def executePhase (envAbel envTrinity : ExecEnv) (abelToken trinityToken : String) :
    ExecResult × ExecResult :=
  (buyTokenWithJupiter envAbel (some abelToken),
   buyTokenWithJupiter envTrinity (some trinityToken))

/-- Scenario B of the spec: entity 6 has token "Mint1", entity 7 has token "". -/
def scenarioB : List Agent :=
  [{ id := 6, tokenAddress := some "Mint1" }, { id := 7, tokenAddress := some "" }]

/-- A concrete oracle in which every external call succeeds. -/
def happyEnv : ExecEnv :=
  { walletPublicKey := "WALLETPK"
    fetchQuote := fun _ => .ok (some { error := none, payload := 1 })
    fetchSwap := fun _ => .ok (some { error := none, swapTransaction := some "dGVzdA" })
    signSerialize := fun s => .ok ("signed:" ++ s)
    sendRawTransaction := fun _ _ => .ok "TXID1"
    getLatestBlockhash := .ok { blockhash := "BH", lastValidBlockHeight := 100 }
    confirmTransaction := fun _ => .ok { value := { err := none } } }

/-- An oracle whose quote fetch throws. -/
def quoteThrowEnv : ExecEnv :=
  { happyEnv with fetchQuote := fun _ => .error "quote boom" }

/-- An oracle whose quote fetch returns a null JSON body. -/
def quoteNullEnv : ExecEnv :=
  { happyEnv with fetchQuote := fun _ => .ok none }

/-- An oracle whose swap build fetch throws. -/
def buildThrowEnv : ExecEnv :=
  { happyEnv with fetchSwap := fun _ => .error "build boom" }

/-! ## Helper lemmas -/

theorem string_eq_empty_iff (s : String) : s = "" ↔ s.data = [] := by
  constructor
  · intro h
    rw [h]
  · intro hd
    cases s with
    | mk d =>
      cases hd
      rfl

theorem length_pos_iff (s : String) : 0 < s.length ↔ s ≠ "" := by
  rw [Ne, string_eq_empty_iff s, ← List.length_eq_zero, String.length, Nat.pos_iff_ne_zero]

theorem pollTick_of_done (s : PollState) (i : FetchResult) (h : s.done = true) :
    pollTick s i = (s, .alreadyDone) := by
  simp [pollTick, h]

theorem pollTick_mono (s : PollState) (i : FetchResult) (h : s.done = true) :
    (pollTick s i).1.done = true := by
  simp [pollTick, h]

theorem pollTick_state_cases (s : PollState) (i : FetchResult) :
    (isExecute (pollTick s i).2 = true ∧ (pollTick s i).1.done = true) ∨
    (isExecute (pollTick s i).2 = false ∧ (pollTick s i).1 = s) := by
  by_cases hd : s.done = true
  · right
    simp [pollTick, hd, isExecute]
  · cases i with
    | failure msg =>
      right
      simp [pollTick, hd, isExecute]
    | success agents =>
      by_cases hc : ((tokenOf agents AGENT_ABEL_ID).length > 0 ||
          (tokenOf agents AGENT_TRINITY_ID).length > 0) = true
      · left
        simp [pollTick, hd, hc, isExecute]
      · right
        simp [pollTick, hd, hc, isExecute]

theorem runTicks_append (s : PollState) (l1 l2 : List FetchResult) :
    (runTicks s (l1 ++ l2)).1 = (runTicks (runTicks s l1).1 l2).1 := by
  induction l1 generalizing s with
  | nil => rfl
  | cons i rest ih => simp [runTicks, ih]

theorem runTicks_mono (s : PollState) (l : List FetchResult) (h : s.done = true) :
    (runTicks s l).1.done = true := by
  induction l generalizing s with
  | nil => exact h
  | cons i rest ih => exact ih _ (pollTick_mono s i h)

theorem execCount_runTicks_le (l : List FetchResult) (s : PollState) :
    execCount (runTicks s l).2 ≤ if s.done then 0 else 1 := by
  induction l generalizing s with
  | nil =>
    simp [runTicks, execCount]
  | cons i rest ih =>
    simp only [runTicks, execCount, List.filter_cons]
    rcases pollTick_state_cases s i with ⟨he, hd⟩ | ⟨he, hs⟩
    · have hsf : s.done = false := by
        by_contra hsd
        rw [Bool.not_eq_false] at hsd
        rw [pollTick_of_done s i hsd] at he
        simp [isExecute] at he
      have hrest := ih (pollTick s i).1
      rw [hd] at hrest
      simp only [execCount, if_true] at hrest
      have hz := Nat.le_zero.mp hrest
      simp [he, hsf, hz]
    · have hrest := ih (pollTick s i).1
      rw [hs] at hrest
      rw [hs]
      simp only [execCount] at hrest
      simp only [he, Bool.false_eq_true, if_false]
      exact hrest

theorem buyBody_trace (env : ExecEnv) (m : String) :
    (buyBody env m).1.head? = some (.quote (quoteReqFor m)) ∧
    List.Chain' (fun a b => stepRank a < stepRank b) (buyBody env m).1 ∧
    (∀ raw opts, Step.submit raw opts ∈ (buyBody env m).1 → opts = sendOptsFixed) := by
  simp only [buyBody]
  cases hq : env.fetchQuote (quoteReqFor m) with
  | error e => simp [hq, stepRank]
  | ok oq =>
    cases oq with
    | none => simp [hq, stepRank]
    | some q =>
      cases hqe : q.error with
      | some e => simp [hq, hqe, stepRank]
      | none =>
        cases hs : env.fetchSwap (swapReqFor env q) with
        | error e => simp [hq, hqe, hs, stepRank]
        | ok osw =>
          cases osw with
          | none => simp [hq, hqe, hs, stepRank]
          | some sw =>
            cases hse : sw.error with
            | some e => simp [hq, hqe, hs, hse, stepRank]
            | none =>
              cases hst : sw.swapTransaction with
              | none => simp [hq, hqe, hs, hse, hst, stepRank]
              | some tx64 =>
                cases hsg : env.signSerialize tx64 with
                | error e => simp [hq, hqe, hs, hse, hst, hsg, stepRank]
                | ok raw =>
                  cases hsend : env.sendRawTransaction raw sendOptsFixed with
                  | error e => simp [hq, hqe, hs, hse, hst, hsg, hsend, stepRank]
                  | ok txid =>
                    cases hbh : env.getLatestBlockhash with
                    | error e =>
                      simp [hq, hqe, hs, hse, hst, hsg, hsend, hbh, stepRank]
                    | ok bh =>
                      cases hc : env.confirmTransaction (confirmReqFor bh txid) with
                      | error e =>
                        simp [hq, hqe, hs, hse, hst, hsg, hsend, hbh, hc, stepRank]
                      | ok conf =>
                        simp [hq, hqe, hs, hse, hst, hsg, hsend, hbh, hc, stepRank]

theorem buyBody_quote_null (env : ExecEnv) (m : String)
    (h : env.fetchQuote (quoteReqFor m) = .ok none) :
    (buyBody env m).2 = .error "Quote API returned an error: undefined" := by
  simp [buyBody, h]

theorem buyBody_quote_err (env : ExecEnv) (m : String) (q : QuoteResp) (e : String)
    (h1 : env.fetchQuote (quoteReqFor m) = .ok (some q)) (h2 : q.error = some e) :
    (buyBody env m).2 = .error ("Quote API returned an error: " ++ e) := by
  simp [buyBody, h1, h2]

theorem buyTokenWithJupiter_steps (env : ExecEnv) (m : String) (hm : jsTrim m ≠ "") :
    (buyTokenWithJupiter env (some m)).steps = (buyBody env m).1 := by
  simp only [buyTokenWithJupiter]
  rw [if_neg hm]
  rcases hb : buyBody env m with ⟨steps, r⟩
  cases r <;> rfl

theorem buyTokenWithJupiter_caught (env : ExecEnv) (m : String) (e : String)
    (hm : jsTrim m ≠ "") (hb : (buyBody env m).2 = .error e) :
    (buyTokenWithJupiter env (some m)).outcome = .caught e := by
  simp only [buyTokenWithJupiter]
  rw [if_neg hm]
  rcases hsplit : buyBody env m with ⟨steps, r⟩
  rw [hsplit] at hb
  simp only at hb
  cases r with
  | ok o => exact absurd hb (by simp)
  | error e2 =>
    simp only [Except.error.injEq] at hb
    rw [hb]

theorem find_head_of_first_match (pre : List Agent) (e : Agent) (post : List Agent)
    (t : Nat) (hpre : ∀ x ∈ pre, (x.id == t) = false) (he : (e.id == t) = true) :
    (pre ++ e :: post).find? (fun x => x.id == t) = some e := by
  induction pre with
  | nil => simp [List.find?, he]
  | cons a rest ih =>
    have ha := hpre a (by simp)
    simp only [List.cons_append, List.find?, ha]
    exact ih (fun x hx => hpre x (by simp [hx]))

/-! ## Claims -/

/-- C1: for every sequence of poll ticks, once the `done` latch becomes true it
never becomes false again (running any further ticks from a state reached with
the latch set leaves the latch set), and starting from the initial state
(`done = false`) the execution phase is entered at most once over any sequence
of ticks. -/
theorem latch_monotone_exec_once :
    (∀ (s : PollState) (l1 l2 : List FetchResult),
      (runTicks s l1).1.done = true → (runTicks s (l1 ++ l2)).1.done = true) ∧
    (∀ inputs : List FetchResult,
      execCount (runTicks { done := false } inputs).2 ≤ 1) := by
  constructor
  · intro s l1 l2 h
    rw [runTicks_append]
    exact runTicks_mono _ _ h
  · intro inputs
    have h := execCount_runTicks_le inputs { done := false }
    simpa using h

theorem latch_monotone_exec_once_witness :
    (runTicks { done := true } ([] ++ [FetchResult.failure "io"])).1.done = true ∧
    execCount (runTicks { done := false } [FetchResult.success scenarioB]).2 ≤ 1 :=
  ⟨latch_monotone_exec_once.1 { done := true } [] [FetchResult.failure "io"] rfl,
   latch_monotone_exec_once.2 [FetchResult.success scenarioB]⟩

/-- C8: on a tick with the latch unset, the poll-interval constant is 100 ms;
a fetch/parse failure reschedules after that fixed delay; a successful
snapshot without detection reschedules after the same fixed delay; and a
successful snapshot with a reveal (either computed token non-empty) sets the
latch and enters the execution phase with both token strings, scheduling no
further tick. -/
theorem pollTick_tick_behavior :
    POLL_INTERVAL_MS = 100 ∧
    (∀ (s : PollState) (msg : String), s.done = false →
      pollTick s (.failure msg) = (s, .reschedule POLL_INTERVAL_MS)) ∧
    (∀ (s : PollState) (agents : List Agent), s.done = false →
      ((tokenOf agents AGENT_ABEL_ID).length > 0 ||
        (tokenOf agents AGENT_TRINITY_ID).length > 0) = false →
      pollTick s (.success agents) = (s, .reschedule POLL_INTERVAL_MS)) ∧
    (∀ (s : PollState) (agents : List Agent), s.done = false →
      ((tokenOf agents AGENT_ABEL_ID).length > 0 ||
        (tokenOf agents AGENT_TRINITY_ID).length > 0) = true →
      pollTick s (.success agents) =
        ({ done := true },
         .execute (tokenOf agents AGENT_ABEL_ID) (tokenOf agents AGENT_TRINITY_ID))) := by
  refine ⟨rfl, ?_, ?_, ?_⟩
  · intro s msg hd
    simp [pollTick, hd]
  · intro s agents hd hc
    simp [pollTick, hd, hc]
  · intro s agents hd hc
    simp [pollTick, hd, hc]

theorem pollTick_tick_behavior_witness :
    pollTick { done := false } (.failure "io") =
      ({ done := false }, .reschedule POLL_INTERVAL_MS) ∧
    pollTick { done := false } (.success []) =
      ({ done := false }, .reschedule POLL_INTERVAL_MS) ∧
    pollTick { done := false } (.success [{ id := 6, tokenAddress := some "Mint1" }]) =
      ({ done := true }, .execute "Mint1" "") := by
  refine ⟨pollTick_tick_behavior.2.1 { done := false } "io" rfl,
          pollTick_tick_behavior.2.2.1 { done := false } [] rfl (by decide), ?_⟩
  have h := pollTick_tick_behavior.2.2.2 { done := false }
    [{ id := 6, tokenAddress := some "Mint1" }] rfl (by decide)
  rw [h]
  decide

/-- C3 (Scenario B): on the snapshot where entity 6 has token "Mint1" and
entity 7 has token "", the tick sets the latch and enters the execution phase
with both token strings; the execution phase invokes the executor for "Mint1"
(which runs the full quote/build/sign/submit/blockhash/confirm sequence) and
for "" (which is a no-op with an empty step trace), and the phase completes
with both outcomes. -/
theorem scenario_b_execution :
    pollTick { done := false } (.success scenarioB) =
      ({ done := true }, .execute "Mint1" "") ∧
    executePhase happyEnv happyEnv "Mint1" "" =
      ({ steps := [.quote (quoteReqFor "Mint1"),
                   .buildSwap (swapReqFor happyEnv { error := none, payload := 1 }),
                   .sign "dGVzdA",
                   .submit "signed:dGVzdA" sendOptsFixed,
                   .getBlockhash,
                   .confirm { blockhash := "BH", lastValidBlockHeight := 100,
                              signature := "TXID1" }],
         outcome := .finished (.success "TXID1" "https://solscan.io/tx/TXID1") },
       { steps := [], outcome := .invalidMint }) := by
  constructor
  · decide
  · decide

/-- C2: the detection step yields a revealed result for a target exactly when
the agent found for that identifier has a token address whose trim is
non-empty, and the revealed address is that trimmed string; a missing entity
yields no reveal; a token address of `""` or `"   "` is not revealed, while
`"  Addr123  "` is revealed as `"Addr123"`. -/
theorem reveal_detection :
    (∀ (agents : List Agent) (t : Nat) (s : String),
      revealResult agents t = some s ↔
        ∃ a, agents.find? (fun x => x.id == t) = some a ∧
          agentToken a ≠ "" ∧ s = agentToken a) ∧
    (∀ (agents : List Agent) (t : Nat),
      agents.find? (fun x => x.id == t) = none → revealResult agents t = none) ∧
    revealResult [{ id := 6, tokenAddress := some "" }] AGENT_ABEL_ID = none ∧
    revealResult [{ id := 6, tokenAddress := some "   " }] AGENT_ABEL_ID = none ∧
    revealResult [{ id := 7, tokenAddress := some "  Addr123  " }] AGENT_TRINITY_ID =
      some "Addr123" ∧
    revealResult [{ id := 7, tokenAddress := some "X" }] AGENT_ABEL_ID = none := by
  refine ⟨?_, ?_, by decide, by decide, by decide, by decide⟩
  · intro agents t s
    unfold revealResult tokenOf
    cases hf : agents.find? (fun x => x.id == t) with
    | none => simp
    | some a =>
      by_cases ha : agentToken a = ""
      · simp [ha]
      · have hl : 0 < (agentToken a).length := (length_pos_iff _).mpr ha
        simp only [hl, if_pos, gt_iff_lt, Option.some.injEq]
        constructor
        · intro h
          exact ⟨a, rfl, ha, h.symm⟩
        · rintro ⟨a', ha', _, hs⟩
          cases ha'
          exact hs.symm
  · intro agents t hf
    unfold revealResult tokenOf
    rw [hf]
    simp

theorem reveal_detection_witness :
    revealResult [] AGENT_ABEL_ID = none ∧
    revealResult [{ id := 6, tokenAddress := some " Mint1 " }] AGENT_ABEL_ID =
      some "Mint1" := by
  constructor
  · exact reveal_detection.2.1 [] AGENT_ABEL_ID rfl
  · exact (reveal_detection.1 [{ id := 6, tokenAddress := some " Mint1 " }]
      AGENT_ABEL_ID "Mint1").mpr
      ⟨{ id := 6, tokenAddress := some " Mint1 " }, by decide, by decide, by decide⟩

/-- C4: the two concurrent executor invocations are independent — each
component of the phase result is a function of its own oracle and address
only — the join returns both results (neither is discarded), and in the
concrete scenario where the first sub-flow throws at the build step the second
still completes with its own success outcome. -/
theorem fanout_independent :
    (∀ (e1 e1' e2 : ExecEnv) (a1 a1' a2 : String),
      (executePhase e1 e2 a1 a2).2 = (executePhase e1' e2 a1' a2).2) ∧
    (∀ (e1 e2 e2' : ExecEnv) (a1 a2 a2' : String),
      (executePhase e1 e2 a1 a2).1 = (executePhase e1 e2' a1 a2').1) ∧
    (∀ (e1 e2 : ExecEnv) (a1 a2 : String),
      executePhase e1 e2 a1 a2 =
        (buyTokenWithJupiter e1 (some a1), buyTokenWithJupiter e2 (some a2))) ∧
    (executePhase buildThrowEnv happyEnv "MintA" "MintB").1.outcome =
      .caught "build boom" ∧
    (executePhase buildThrowEnv happyEnv "MintA" "MintB").2.outcome =
      .finished (.success "TXID1" "https://solscan.io/tx/TXID1") :=
  ⟨fun _ _ _ _ _ _ => rfl, fun _ _ _ _ _ _ => rfl, fun _ _ _ _ => rfl,
   by decide, by decide⟩

/-- C5: an absent, empty, or whitespace-only mint makes the executor return
the no-op outcome with an empty step trace — no quote, build, submit, or
confirmation call is made — and no error is raised. -/
theorem blank_mint_noop :
    ∀ (env : ExecEnv) (mint : Option String),
      (mint = none ∨ ∃ m, mint = some m ∧ jsTrim m = "") →
      buyTokenWithJupiter env mint = { steps := [], outcome := .invalidMint } := by
  intro env mint h
  rcases h with h | ⟨m, hm, ht⟩
  · rw [h]
    rfl
  · rw [hm]
    simp [buyTokenWithJupiter, ht]

theorem blank_mint_noop_witness :
    buyTokenWithJupiter happyEnv (some "   ") =
      { steps := [], outcome := .invalidMint } :=
  blank_mint_noop happyEnv (some "   ") (Or.inr ⟨"   ", rfl, by decide⟩)

/-- C7: the confirmation interpreter is total (it returns a `ConfirmOutcome`
for every input, with no exceptional path): a null error value yields the
success outcome with the Solscan block-explorer link, and a present error
value yields the failure outcome carrying the raw error detail. -/
theorem confirmation_total :
    ∀ (txid : String) (conf : RpcResponseAndContext),
      (conf.value.err = none →
        handleTxConfirmation txid conf =
          .success txid ("https://solscan.io/tx/" ++ txid)) ∧
      (∀ e, conf.value.err = some e →
        handleTxConfirmation txid conf = .failure e) := by
  intro txid conf
  constructor
  · intro h
    simp [handleTxConfirmation, h]
  · intro e h
    simp [handleTxConfirmation, h]

theorem confirmation_total_witness :
    handleTxConfirmation "Txid1" { value := { err := none } } =
      .success "Txid1" "https://solscan.io/tx/Txid1" ∧
    handleTxConfirmation "Txid1" { value := { err := some "InstructionError" } } =
      .failure "InstructionError" := by
  constructor
  · have h := (confirmation_total "Txid1" { value := { err := none } }).1 rfl
    rw [h]
    decide
  · exact (confirmation_total "Txid1"
      { value := { err := some "InstructionError" } }).2 "InstructionError" rfl

/-- C9: the executor never propagates an exception: its result type has no
exceptional case, and whenever the `try` block throws (`buyBody` ends in
`.error`), the executor returns the caught-and-logged outcome carrying that
error, for every oracle behavior. -/
theorem executor_never_rejects :
    ∀ (env : ExecEnv) (m : String) (e : String),
      jsTrim m ≠ "" → (buyBody env m).2 = .error e →
      (buyTokenWithJupiter env (some m)).outcome = .caught e := by
  intro env m e hm hb
  exact buyTokenWithJupiter_caught env m e hm hb

theorem executor_never_rejects_witness :
    (buyTokenWithJupiter quoteThrowEnv (some "MintX")).outcome =
      .caught "quote boom" :=
  executor_never_rejects quoteThrowEnv "MintX" "quote boom" (by decide) rfl

/-- C10: when the snapshot holds several agents with the configured id, the
detection uses the first one in snapshot order (`Array.prototype.find`
semantics): the computed token is the first matching agent's trimmed token
address, and later duplicates are ignored. -/
theorem find_first_duplicate :
    ∀ (pre : List Agent) (e : Agent) (post : List Agent) (t : Nat),
      (∀ x ∈ pre, (x.id == t) = false) → (e.id == t) = true →
      tokenOf (pre ++ e :: post) t = agentToken e := by
  intro pre e post t hpre he
  unfold tokenOf
  rw [find_head_of_first_match pre e post t hpre he]

theorem find_first_duplicate_witness :
    tokenOf [{ id := 5, tokenAddress := some "X" },
             { id := 6, tokenAddress := some " A " },
             { id := 6, tokenAddress := some "B" }] AGENT_ABEL_ID =
      agentToken { id := 6, tokenAddress := some " A " } :=
  find_first_duplicate [{ id := 5, tokenAddress := some "X" }]
    { id := 6, tokenAddress := some " A " } [{ id := 6, tokenAddress := some "B" }]
    AGENT_ABEL_ID (by decide) (by decide)

/-- C6: for a non-blank mint the executor's step trace starts with the quote
request (fixed amount 1 000 000 000 lamports, fixed slippage 5000 bps) and
follows the pipeline order quote → build → sign → submit → blockhash →
confirm (strictly increasing step ranks); every submission uses
`{ skipPreflight := true, maxRetries := 2 }`; and a null quote response or a
quote response with an error field makes the run fail with the quote error. -/
theorem swap_sequence :
    ∀ (env : ExecEnv) (m : String), jsTrim m ≠ "" →
      (buyTokenWithJupiter env (some m)).steps.head? =
        some (.quote (quoteReqFor m)) ∧
      (quoteReqFor m).amount = 1000000000 ∧
      (quoteReqFor m).slippageBps = 5000 ∧
      List.Chain' (fun a b => stepRank a < stepRank b)
        (buyTokenWithJupiter env (some m)).steps ∧
      (∀ raw opts, Step.submit raw opts ∈ (buyTokenWithJupiter env (some m)).steps →
        opts = { skipPreflight := true, maxRetries := 2 }) ∧
      (env.fetchQuote (quoteReqFor m) = .ok none →
        (buyTokenWithJupiter env (some m)).outcome =
          .caught "Quote API returned an error: undefined") ∧
      (∀ q e, env.fetchQuote (quoteReqFor m) = .ok (some q) → q.error = some e →
        (buyTokenWithJupiter env (some m)).outcome =
          .caught ("Quote API returned an error: " ++ e)) := by
  intro env m hm
  have hsteps := buyTokenWithJupiter_steps env m hm
  have htrace := buyBody_trace env m
  refine ⟨?_, rfl, rfl, ?_, ?_, ?_, ?_⟩
  · rw [hsteps]
    exact htrace.1
  · rw [hsteps]
    exact htrace.2.1
  · intro raw opts hmem
    rw [hsteps] at hmem
    exact htrace.2.2 raw opts hmem
  · intro hq
    exact buyTokenWithJupiter_caught env m _ hm (buyBody_quote_null env m hq)
  · intro q e hq hqe
    exact buyTokenWithJupiter_caught env m _ hm (buyBody_quote_err env m q e hq hqe)

theorem swap_sequence_witness :
    (buyTokenWithJupiter quoteNullEnv (some "Mint1")).steps.head? =
      some (.quote (quoteReqFor "Mint1")) ∧
    (buyTokenWithJupiter quoteNullEnv (some "Mint1")).outcome =
      .caught "Quote API returned an error: undefined" := by
  have h := swap_sequence quoteNullEnv "Mint1" (by decide)
  exact ⟨h.1, h.2.2.2.2.2.1 rfl⟩

end SporeSniper
